import Mathlib

/-!
Shallow embedding of the `dll-proxy-server` forward proxy (src/src/main.cpp).

The program is a Qt event-driven proxy.  Each accepted client connection is a
`ProxyConnection` owning a downstream (client) socket and an upstream
(destination) socket; a `ProxyServer` keeps a registry `QMap<int, connection>`.
We embed the per-connection slots (`terminate`, `downStreamReadyRead`,
`upStreamReadyRead`), the host-lookup completion lambda and the
upstream-connected lambda as pure functions from a `Session` record to a new
`Session` plus a list of observable `Action`s, and dispatch Qt events through a
`step` function that models Qt signal delivery (a signal of a socket whose
signals are blocked is not delivered; host-lookup completions are delivered to
the connection object as long as it exists, since `QObject::blockSignals`
does not suppress the queued functor invocation used by `QHostInfo::lookupHost`).

Qt facts used by the embedding (documented `QAbstractSocket` behaviour):
  * a failed connect attempt (e.g. connection refused) emits `errorOccurred`
    and moves the socket to `UnconnectedState`; it does NOT emit
    `disconnected` (that signal is only emitted for an established connection
    going away);
  * `connectToHost` on a socket already in `ConnectingState` or
    `ConnectedState` only warns and does not restart the connection, while on
    an unconnected/closed socket it starts a fresh attempt;
  * `close()` moves a socket to `UnconnectedState`.

The external HTTP request parser (`httpparser::HttpRequestParser`, an external
collaborator outside this repository) is modelled as an oracle: every
downstream-data event carries the parser's verdict for that byte chunk.
-/

namespace DllProxy

/-- Relevant subset of `QAbstractSocket::SocketState` for the upstream socket:
the code only ever compares against `ConnectedState`, and `connectToHost`
behaviour depends on `ConnectingState`/`ConnectedState`. -/
inductive SockState
  | Unconnected
  | Connecting
  | Connected
deriving DecidableEq

/-- The fields of `httpparser::Request` that `downStreamReadyRead` reads:
`method`, `uri`, `versionMajor`, `versionMinor`. -/
structure Request where
  method : String
  uri : String
  versionMajor : Nat
  versionMinor : Nat
deriving DecidableEq

/-- Outcome of `HttpRequestParser::parse`: `ParsingCompleted`,
`ParsingIncompleted` or `ParsingError`; the code only distinguishes
`ParsingCompleted` from the rest. -/
inductive ParseResult
  | Completed (r : Request)
  | Incompleted
  | Error
deriving DecidableEq

/-- Observable effects of the connection's slots, in program order.
`lookupHost` records the `QHostInfo::lookupHost` call together with the port
and parsed request captured by value in its completion lambda;
`connectAttempt` is the `_upStream->connectToHost` call; `closeDown`/`closeUp`
are `disconnectFromHost(); close()` on the respective socket; `emitTerminated`
is the delivered `terminated(id)` signal. -/
inductive Action
  | lookupHost (host : String) (port : Int) (req : Request)
  | connectAttempt (addr : String) (port : Int)
  | writeDown (data : String)
  | flushDown
  | writeUp (data : String)
  | flushUp
  | closeDown
  | closeUp
  | warn (msg : String)
  | emitTerminated (id : Int)
deriving DecidableEq

/-- State of one `ProxyConnection` object.  `downBlocked`/`upBlocked` are the
sockets' `signalsBlocked()` flags, `downOpen`/`upOpen` record whether
`close()` has been called on the socket, `connectedHandlers` are the lambdas
registered on the upstream `connected` signal (each captures the parsed
request by value), and `selfBlocked` is the connection object's own
`signalsBlocked()` flag (set by the server in `onConnectionTerminate`). -/
structure Session where
  id : Int
  downBlocked : Bool
  upBlocked : Bool
  downOpen : Bool
  upOpen : Bool
  upState : SockState
  connectedHandlers : List Request
  selfBlocked : Bool
deriving DecidableEq

/-- A freshly accepted connection: upstream socket created unconnected
(`ProxyConnection::ProxyConnection`, src/src/main.cpp:172-184). -/
def initSession (id : Int) : Session :=
  { id := id
    downBlocked := false
    upBlocked := false
    downOpen := true
    upOpen := true
    upState := SockState.Unconnected
    connectedHandlers := []
    selfBlocked := false }

/-- The method whitelist test at src/src/main.cpp:210-215. -/
def supportedMethod (m : String) : Bool :=
  m = "CONNECT" || m = "GET" || m = "PUT" || m = "POST" || m = "HEAD" || m = "DELETE"

/-- Embeds matching the PCRE pattern of src/src/main.cpp:216,
`^(.*):(\d+)$`, against a subject without newline characters (the request
URI produced by the tokenizer never contains CR/LF).  The greedy `(.*)`
makes the match split at the last colon followed by a nonempty all-digit
suffix; `\d` is ASCII `[0-9]` (Qt does not enable PCRE Unicode properties
by default).  Returns the two captures on success. -/
def splitHostPort (cs : List Char) : Option (List Char × List Char) :=
  match cs.reverse.dropWhile Char.isDigit with
  | ':' :: hr =>
      if (cs.reverse.takeWhile Char.isDigit).isEmpty then none
      else some (hr.reverse, (cs.reverse.takeWhile Char.isDigit).reverse)
  | _ => none

/-- String-level wrapper of `splitHostPort`: `regex.match(request.uri)`
with captures `(host, port)`. -/
def matchHostPort (s : String) : Option (String × String) :=
  match splitHostPort s.data with
  | some (h, p) => some (String.mk h, String.mk p)
  | none => none

/-- `QString::toInt` on the second capture (a nonempty all-digit string):
its decimal value if it fits a 32-bit signed int, `0` on overflow. -/
def qtoInt (p : String) : Int :=
  let n : Nat := p.data.foldl (fun acc c => acc * 10 + (c.toNat - 48)) 0
  if n ≤ 2147483647 then (n : Int) else 0

/-- `QCoreApplication::applicationName()` as set in `startServer`
(src/src/main.cpp:95). -/
def applicationName : String := "DllProxyServer"

/-- `QCoreApplication::applicationVersion()` as set in `startServer`
(src/src/main.cpp:96). -/
def applicationVersion : String := "1.0.0"

/-- The `200 Connection established` reply built at src/src/main.cpp:230-234:
`HTTP/%1.%2 200 Connection established\r\nProxy-agent: %3/%4\r\n\r\n` with the
request's version numbers and the application name/version. -/
def connectedResponse (maj min : Nat) : String :=
  "HTTP/" ++ toString maj ++ "." ++ toString min ++
    " 200 Connection established\r\nProxy-agent: " ++
    applicationName ++ "/" ++ applicationVersion ++ "\r\n\r\n"

/-- `ProxyConnection::terminate` (src/src/main.cpp:188-197): block both
sockets' signals, disconnect and close both, then `Q_EMIT terminated(_id)`.
The emission is delivered only while the connection object's own signals are
not blocked (`QObject::blockSignals`). -/
def terminate (s : Session) : Session × List Action :=
  ({ s with
      downBlocked := true
      upBlocked := true
      downOpen := false
      upOpen := false
      upState := SockState.Unconnected },
   [Action.closeDown, Action.closeUp] ++
     (if s.selfBlocked then [] else [Action.emitTerminated s.id]))

/-- `ProxyConnection::downStreamReadyRead` (src/src/main.cpp:199-257).
`data` is `_downStream->readAll()`, `pr` is the external parser's verdict on
it.  With the upstream socket not yet connected the chunk is classified:
a completed parse with a supported method and a target matching
`^(.*):(\d+)$` issues `QHostInfo::lookupHost` (whose lambda captures the
request and the port); a non-matching target or a failed parse terminates;
an unsupported method falls through the `if` with no `else` — nothing
happens.  With the upstream connected, the chunk is relayed upstream. -/
def downStreamReadyRead (s : Session) (data : String) (pr : ParseResult) :
    Session × List Action :=
  if s.upState ≠ SockState.Connected then
    match pr with
    | ParseResult.Completed req =>
        if supportedMethod req.method then
          match matchHostPort req.uri with
          | some (host, portStr) =>
              (s, [Action.lookupHost host (qtoInt portStr) req])
          | none =>
              let t := terminate s
              (t.1, Action.warn "Invaid URI found!" :: t.2)
        else
          (s, [])
    | _ =>
        let t := terminate s
        (t.1, Action.warn "HttpRequest parse failed!" :: t.2)
  else
    (s, [Action.writeUp data, Action.flushUp])

/-- The `QHostInfo::lookupHost` completion lambda (src/src/main.cpp:222-243),
with its by-value captures `req` and `port`.  No addresses: warn and
terminate.  Otherwise `_upStream->connectToHost(addresses.first(), port)`
(the call is always made; the socket starts connecting only when it is not
already connecting/connected) and one more lambda is registered on the
upstream `connected` signal. -/
def lookupHandler (s : Session) (req : Request) (port : Int)
    (addresses : List String) : Session × List Action :=
  match addresses with
  | [] =>
      let t := terminate s
      (t.1, Action.warn "HostLookup failed!" :: t.2)
  | a :: _ =>
      let s1 :=
        if s.upState = SockState.Connecting ∨ s.upState = SockState.Connected then s
        else { s with upState := SockState.Connecting }
      ({ s1 with connectedHandlers := s1.connectedHandlers ++ [req] },
       [Action.connectAttempt a port])

/-- One upstream-`connected` lambda (src/src/main.cpp:228-238): for a CONNECT
request write the success reply downstream and flush; for any other method do
nothing. -/
def connectedLambda (req : Request) : List Action :=
  if req.method = "CONNECT" then
    [Action.writeDown (connectedResponse req.versionMajor req.versionMinor),
     Action.flushDown]
  else []

/-- `ProxyConnection::upStreamReadyRead` (src/src/main.cpp:259-262): copy all
available upstream bytes downstream and flush, with no state or
connectedness check. -/
def upStreamReadyRead (s : Session) (data : String) : Session × List Action :=
  (s, [Action.writeDown data, Action.flushDown])

/-- Qt events a live `ProxyConnection` can receive.  `downData`/`upData` are
`readyRead` on the respective socket (with the bytes read by `readAll` and,
for downstream, the parser oracle's verdict); `upConnectFail` is a failed
connect attempt (`errorOccurred`, socket back to `UnconnectedState`, no
`disconnected`); `lookupResult` is the completion of a
`QHostInfo::lookupHost` call whose lambda captured `req` and `port`. -/
inductive Event
  | downData (data : String) (pr : ParseResult)
  | downDisconnected
  | downError
  | upConnectFail
  | upConnected
  | upData (data : String)
  | upDisconnected
  | lookupResult (req : Request) (port : Int) (addresses : List String)
deriving DecidableEq

/-- Qt signal dispatch for one event: connections made in the constructor
(src/src/main.cpp:174-183) plus the two lambdas registered later.  A socket
whose signals are blocked delivers no signal (its state still changes);
lookup completions are functor invocations on the connection object and are
delivered as long as the object exists — `blockSignals` does not stop them,
and the object's deferred deletion only runs after the event queue drains. -/
def step (s : Session) (e : Event) : Session × List Action :=
  match e with
  | Event.downData d pr =>
      if s.downBlocked then (s, []) else downStreamReadyRead s d pr
  | Event.downDisconnected =>
      if s.downBlocked then (s, []) else terminate s
  | Event.downError =>
      if s.downBlocked then (s, []) else (s, [Action.warn "DownStream error"])
  | Event.upConnectFail =>
      let s1 := { s with upState := SockState.Unconnected }
      if s.upBlocked then (s1, []) else (s1, [Action.warn "UpStream error"])
  | Event.upConnected =>
      let s1 := { s with upState := SockState.Connected }
      if s.upBlocked then (s1, [])
      else (s1, (s.connectedHandlers.map connectedLambda).flatten)
  | Event.upData d =>
      if s.upBlocked then (s, []) else upStreamReadyRead s d
  | Event.upDisconnected =>
      if s.upBlocked then (s, []) else terminate s
  | Event.lookupResult req port addrs =>
      lookupHandler s req port addrs

/-- Run a sequence of events, concatenating the emitted actions. -/
def run (s : Session) : List Event → Session × List Action
  | [] => (s, [])
  | e :: es =>
      let p := step s e
      let q := run p.1 es
      (q.1, p.2 ++ q.2)

/-- Both sockets closed and their signals blocked: the observable outcome of
`ProxyConnection::terminate`. -/
def isTerminated (s : Session) : Bool :=
  s.downBlocked && s.upBlocked && !s.downOpen && !s.upOpen

/-- Payloads written to the downstream socket. -/
def downWrites (as : List Action) : List String :=
  as.filterMap fun a =>
    match a with
    | Action.writeDown d => some d
    | _ => none

/-- Payloads written to the upstream socket. -/
def upWrites (as : List Action) : List String :=
  as.filterMap fun a =>
    match a with
    | Action.writeUp d => some d
    | _ => none

/-- Hosts passed to `QHostInfo::lookupHost`. -/
def lookups (as : List Action) : List String :=
  as.filterMap fun a =>
    match a with
    | Action.lookupHost h _ _ => some h
    | _ => none

/-- Arguments of `connectToHost` calls. -/
def connectCalls (as : List Action) : List (String × Int) :=
  as.filterMap fun a =>
    match a with
    | Action.connectAttempt ad p => some (ad, p)
    | _ => none

/-- Delivered `terminated(id)` notifications. -/
def notifications (as : List Action) : List Int :=
  as.filterMap fun a =>
    match a with
    | Action.emitTerminated i => some i
    | _ => none

/-- Combined state of the `ProxyServer` and one `ProxyConnection`: the
connection object (which outlives its registry entry until the deferred
delete runs) together with the ids present in the server's
`_connections` map.  In the modelled single-connection system the map holds
the connection exactly when its id is in `registry`. -/
structure SystemState where
  conn : Session
  registry : List Int
deriving DecidableEq

/-- `ProxyServer::onConnectionTerminate` (src/src/main.cpp:163-170): if the id
is present in the map, block the stored connection's signals and remove the
entry; otherwise `QMap::value` yields a null pointer and nothing happens.
Returns the new state and the number of registry removals performed. -/
def onConnectionTerminate (st : SystemState) (id : Int) : SystemState × Nat :=
  if st.registry.contains id then
    ({ conn := if st.conn.id = id then { st.conn with selfBlocked := true } else st.conn
       registry := st.registry.filter (fun j => j != id) }, 1)
  else
    (st, 0)

/-- `ProxyConnection::terminate` followed by Qt's delivery of the emitted
`terminated(id)` signal to `ProxyServer::onConnectionTerminate` (a direct,
same-thread connection, src/src/main.cpp:155).  When the connection object's
own signals are blocked the emission is suppressed and nothing is delivered.
Returns (new state, registry removals, notifications delivered). -/
def fireTerminate (st : SystemState) : SystemState × Nat × Nat :=
  let t := terminate st.conn
  let st1 : SystemState := { st with conn := t.1 }
  if st.conn.selfBlocked then
    (st1, 0, 0)
  else
    let r := onConnectionTerminate st1 st1.conn.id
    (r.1, r.2, 1)

/-- Specification-side account of the relayed bytes (for the refinement claim
about upstream writes): the payloads of exactly those downstream `readyRead`
events that are delivered while the upstream socket is in `ConnectedState`. -/
def connectedDownData (s : Session) : List Event → List String
  | [] => []
  | e :: es =>
      (match e with
       | Event.downData d _ =>
           if s.downBlocked = false ∧ s.upState = SockState.Connected then [d] else []
       | _ => []) ++ connectedDownData (step s e).1 es

/-- The shape `^(.*):(\d+)$` describes (on newline-free subjects): a final
colon followed by at least one ASCII digit, the prefix arbitrary. -/
def HasHostPortForm (s : String) : Prop :=
  ∃ h p : List Char, s.data = h ++ ':' :: p ∧ p ≠ [] ∧ ∀ c ∈ p, c.isDigit = true

theorem takeWhile_all_append {p : Char → Bool} {l1 : List Char} (c : Char)
    (l2 : List Char) (h1 : ∀ a ∈ l1, p a = true) (hc : p c = false) :
    (l1 ++ c :: l2).takeWhile p = l1 := by
  induction l1 with
  | nil => simp [List.takeWhile_cons, hc]
  | cons a l ih =>
      have ha : p a = true := h1 a (by simp)
      simp only [List.cons_append, List.takeWhile_cons, ha, if_true]
      rw [ih fun x hx => h1 x (by simp [hx])]

theorem dropWhile_all_append {p : Char → Bool} {l1 : List Char} (c : Char)
    (l2 : List Char) (h1 : ∀ a ∈ l1, p a = true) (hc : p c = false) :
    (l1 ++ c :: l2).dropWhile p = c :: l2 := by
  induction l1 with
  | nil => simp [List.dropWhile_cons, hc]
  | cons a l ih =>
      have ha : p a = true := h1 a (by simp)
      simp only [List.cons_append, List.dropWhile_cons, ha, if_true]
      exact ih fun x hx => h1 x (by simp [hx])

theorem splitHostPort_sound {cs h p : List Char}
    (hs : splitHostPort cs = some (h, p)) :
    cs = h ++ ':' :: p ∧ p ≠ [] ∧ ∀ c ∈ p, c.isDigit = true := by
  unfold splitHostPort at hs
  split at hs
  case h_2 => exact absurd hs (by simp)
  case h_1 hr heq =>
    by_cases hemp : (cs.reverse.takeWhile Char.isDigit).isEmpty
    · rw [if_pos hemp] at hs
      exact absurd hs (by simp)
    · rw [if_neg hemp] at hs
      have hhp : hr.reverse = h ∧ (cs.reverse.takeWhile Char.isDigit).reverse = p := by
        constructor <;> [exact congrArg Prod.fst (Option.some.inj hs);
          exact congrArg Prod.snd (Option.some.inj hs)]
      have hsplit : cs.reverse =
          cs.reverse.takeWhile Char.isDigit ++ ':' :: hr := by
        conv_lhs => rw [← List.takeWhile_append_dropWhile (p := Char.isDigit) (l := cs.reverse)]
        rw [heq]
      refine ⟨?_, ?_, ?_⟩
      · have := congrArg List.reverse hsplit
        simpa [List.reverse_append, hhp.1, hhp.2] using this
      · intro hnil
        rw [← hhp.2] at hnil
        simp only [List.isEmpty_iff] at hemp
        exact hemp (by simpa using hnil)
      · intro c hcmem
        rw [← hhp.2] at hcmem
        exact List.mem_takeWhile_imp (List.mem_reverse.mp hcmem)

theorem splitHostPort_complete {h p : List Char} (hp : p ≠ [])
    (hd : ∀ c ∈ p, c.isDigit = true) :
    splitHostPort (h ++ ':' :: p) = some (h, p) := by
  have hrev : (h ++ ':' :: p).reverse = p.reverse ++ ':' :: h.reverse := by
    simp [List.reverse_append]
  have hall : ∀ a ∈ p.reverse, a.isDigit = true := fun a ha =>
    hd a (List.mem_reverse.mp ha)
  have hcolon : (':' : Char).isDigit = false := by decide
  have htake : ((h ++ ':' :: p).reverse).takeWhile Char.isDigit = p.reverse := by
    rw [hrev]; exact takeWhile_all_append _ _ hall hcolon
  have hdrop : ((h ++ ':' :: p).reverse).dropWhile Char.isDigit = ':' :: h.reverse := by
    rw [hrev]; exact dropWhile_all_append _ _ hall hcolon
  unfold splitHostPort
  rw [hdrop, htake]
  have : p.reverse.isEmpty = false := by
    simp [List.isEmpty_iff, hp]
  simp [this]

theorem matchHostPort_some_iff (s : String) :
    (∃ hp, matchHostPort s = some hp) ↔ HasHostPortForm s := by
  constructor
  · rintro ⟨⟨h, p⟩, hm⟩
    unfold matchHostPort at hm
    rcases hsp : splitHostPort s.data with _ | ⟨hl, pl⟩
    · rw [hsp] at hm; exact absurd hm (by simp)
    · obtain ⟨h1, h2, h3⟩ := splitHostPort_sound hsp
      exact ⟨hl, pl, h1, h2, h3⟩
  · rintro ⟨h, p, h1, h2, h3⟩
    refine ⟨(String.mk h, String.mk p), ?_⟩
    unfold matchHostPort
    rw [h1, splitHostPort_complete h2 h3]

theorem downWrites_append (a b : List Action) :
    downWrites (a ++ b) = downWrites a ++ downWrites b :=
  List.filterMap_append ..

theorem upWrites_append (a b : List Action) :
    upWrites (a ++ b) = upWrites a ++ upWrites b :=
  List.filterMap_append ..

theorem run_cons (s : Session) (e : Event) (es : List Event) :
    run s (e :: es) =
      ((run (step s e).1 es).1, (step s e).2 ++ (run (step s e).1 es).2) := rfl

@[simp] theorem upWrites_nil : upWrites [] = [] := rfl

@[simp] theorem upWrites_cons (a : Action) (as : List Action) :
    upWrites (a :: as) =
      (match a with | Action.writeUp d => [d] | _ => []) ++ upWrites as := by
  cases a <;> rfl

@[simp] theorem downWrites_nil : downWrites [] = [] := rfl

@[simp] theorem downWrites_cons (a : Action) (as : List Action) :
    downWrites (a :: as) =
      (match a with | Action.writeDown d => [d] | _ => []) ++ downWrites as := by
  cases a <;> rfl

@[simp] theorem lookups_nil : lookups [] = [] := rfl

@[simp] theorem lookups_cons (a : Action) (as : List Action) :
    lookups (a :: as) =
      (match a with | Action.lookupHost h _ _ => [h] | _ => []) ++ lookups as := by
  cases a <;> rfl

@[simp] theorem connectCalls_nil : connectCalls [] = [] := rfl

@[simp] theorem connectCalls_cons (a : Action) (as : List Action) :
    connectCalls (a :: as) =
      (match a with | Action.connectAttempt ad p => [(ad, p)] | _ => []) ++
        connectCalls as := by
  cases a <;> rfl

@[simp] theorem notifications_nil : notifications [] = [] := rfl

@[simp] theorem notifications_cons (a : Action) (as : List Action) :
    notifications (a :: as) =
      (match a with | Action.emitTerminated i => [i] | _ => []) ++
        notifications as := by
  cases a <;> rfl

theorem upWrites_connectedLambda (r : Request) :
    upWrites (connectedLambda r) = [] := by
  unfold connectedLambda
  split <;> simp

theorem upWrites_handlers (l : List Request) :
    upWrites ((l.map connectedLambda).flatten) = [] := by
  induction l with
  | nil => rfl
  | cons r l ih =>
      simp [upWrites_append, upWrites_connectedLambda, ih]

theorem upWrites_terminate (s : Session) : upWrites (terminate s).2 = [] := by
  unfold terminate
  split <;> simp

theorem downWrites_terminate (s : Session) : downWrites (terminate s).2 = [] := by
  unfold terminate
  split <;> simp

theorem upWrites_step (s : Session) (e : Event) :
    upWrites (step s e).2 =
      (match e with
       | Event.downData d _ =>
           if s.downBlocked = false ∧ s.upState = SockState.Connected then [d] else []
       | _ => []) := by
  cases e with
  | downData d pr =>
      by_cases hb : s.downBlocked
      · simp [step, hb]
      · simp only [Bool.not_eq_true] at hb
        by_cases hc : s.upState = SockState.Connected
        · simp [step, hb, downStreamReadyRead, hc]
        · cases pr with
          | Completed req =>
              simp only [step, hb, downStreamReadyRead, hc, if_false, Bool.false_eq_true,
                ne_eq, not_false_iff, if_true]
              split
              · split
                · simp
                · simp [upWrites_append, upWrites_terminate]
              · simp [hb, hc]
          | Incompleted =>
              simp [step, hb, downStreamReadyRead, hc, upWrites_terminate]
          | Error =>
              simp [step, hb, downStreamReadyRead, hc, upWrites_terminate]
  | downDisconnected =>
      by_cases hb : s.downBlocked <;> simp [step, hb, upWrites_terminate]
  | downError =>
      by_cases hb : s.downBlocked <;> simp [step, hb]
  | upConnectFail =>
      by_cases hb : s.upBlocked <;> simp [step, hb]
  | upConnected =>
      by_cases hb : s.upBlocked <;> simp [step, hb, upWrites_handlers]
  | upData d =>
      by_cases hb : s.upBlocked <;> simp [step, hb, upStreamReadyRead]
  | upDisconnected =>
      by_cases hb : s.upBlocked <;> simp [step, hb, upWrites_terminate]
  | lookupResult req port addrs =>
      cases addrs <;> simp [step, lookupHandler, upWrites_terminate]

theorem step_preserves_blocked (s : Session) (e : Event)
    (h1 : s.downBlocked = true) (h2 : s.upBlocked = true) :
    (step s e).1.downBlocked = true ∧ (step s e).1.upBlocked = true := by
  cases e with
  | lookupResult req port addrs =>
      cases addrs with
      | nil => simp [step, lookupHandler, terminate]
      | cons a rest =>
          simp only [step, lookupHandler]
          split <;> simp [h1, h2]
  | _ => simp [step, h1, h2, downStreamReadyRead, upStreamReadyRead, terminate]

theorem downWrites_step_blocked (s : Session) (e : Event)
    (h1 : s.downBlocked = true) (h2 : s.upBlocked = true) :
    downWrites (step s e).2 = [] := by
  cases e with
  | lookupResult req port addrs =>
      cases addrs with
      | nil => simp [step, lookupHandler, downWrites_terminate]
      | cons a rest => simp [step, lookupHandler]
  | _ => simp [step, h1, h2]

theorem downWrites_run_blocked (s : Session) (es : List Event)
    (h1 : s.downBlocked = true) (h2 : s.upBlocked = true) :
    downWrites (run s es).2 = [] := by
  induction es generalizing s with
  | nil => rfl
  | cons e es ih =>
      rw [run_cons, downWrites_append, downWrites_step_blocked s e h1 h2,
        ih _ (step_preserves_blocked s e h1 h2).1 (step_preserves_blocked s e h1 h2).2]
      rfl

/-- C1: claims that a refused upstream connect attempt drives the Session to
Terminated (both sockets closed, one termination notification).  The code
does the opposite: `terminate` is connected only to the sockets'
`disconnected` signals, which Qt does not emit for a failed connect attempt;
the upstream `errorOccurred` handler only logs a warning.  This theorem
evaluates the failing trace — classify `CONNECT host:9999`, resolve, connect
refused — and shows the session stays alive: both sockets open, signals
unblocked, no close and no `terminated` notification, only a warning. -/
theorem c1_connect_refused_no_termination :
    run (initSession 9)
        [Event.downData "CONNECT host:9999 HTTP/1.1\r\n\r\n"
           (ParseResult.Completed ⟨"CONNECT", "host:9999", 1, 1⟩),
         Event.lookupResult ⟨"CONNECT", "host:9999", 1, 1⟩ 9999 ["10.0.0.1"],
         Event.upConnectFail] =
      (⟨9, false, false, true, true, SockState.Unconnected,
          [⟨"CONNECT", "host:9999", 1, 1⟩], false⟩,
       [Action.lookupHost "host" 9999 ⟨"CONNECT", "host:9999", 1, 1⟩,
        Action.connectAttempt "10.0.0.1" 9999,
        Action.warn "UpStream error"]) ∧
    isTerminated
        (run (initSession 9)
          [Event.downData "CONNECT host:9999 HTTP/1.1\r\n\r\n"
             (ParseResult.Completed ⟨"CONNECT", "host:9999", 1, 1⟩),
           Event.lookupResult ⟨"CONNECT", "host:9999", 1, 1⟩ 9999 ["10.0.0.1"],
           Event.upConnectFail]).1 = false ∧
    notifications
        (run (initSession 9)
          [Event.downData "CONNECT host:9999 HTTP/1.1\r\n\r\n"
             (ParseResult.Completed ⟨"CONNECT", "host:9999", 1, 1⟩),
           Event.lookupResult ⟨"CONNECT", "host:9999", 1, 1⟩ 9999 ["10.0.0.1"],
           Event.upConnectFail]).2 = [] := by
  decide

/-- C2: claims that first downstream data parsing completely with an
unsupported method (here `OPTIONS`) drives the Session to Terminated.  The
code's supported-method `if` has no `else` branch, so the chunk is silently
discarded: the session state is unchanged and no action — in particular no
socket close and no termination notification — is produced. -/
theorem c2_unsupported_method_ignored :
    step (initSession 4)
        (Event.downData "OPTIONS example.com:80 HTTP/1.1\r\n\r\n"
          (ParseResult.Completed ⟨"OPTIONS", "example.com:80", 1, 1⟩)) =
      (initSession 4, []) ∧
    supportedMethod "OPTIONS" = false ∧
    isTerminated (initSession 4) = false := by
  decide

/-- C3: for a CONNECT request whose host resolves and whose upstream connect
succeeds, the proxy writes exactly
`HTTP/<major>.<minor> 200 Connection established\r\nProxy-agent:
DllProxyServer/1.0.0\r\n\r\n` to the downstream socket and flushes it; for
the five other supported methods no synthesized response is written on
success.  Proved over the full trace classify → resolve → connect for every
supported method and every request version. -/
theorem c3_connect_reply (ma mi : Nat) (m : String) (hm : supportedMethod m = true) :
    (run (initSession 1)
        [Event.downData "request bytes" (ParseResult.Completed ⟨m, "example.com:443", ma, mi⟩),
         Event.lookupResult ⟨m, "example.com:443", ma, mi⟩ 443 ["93.184.216.34"],
         Event.upConnected]).2 =
      [Action.lookupHost "example.com" 443 ⟨m, "example.com:443", ma, mi⟩,
       Action.connectAttempt "93.184.216.34" 443] ++
        (if m = "CONNECT"
         then [Action.writeDown (connectedResponse ma mi), Action.flushDown]
         else []) := by
  have hmatch : matchHostPort "example.com:443" = some ("example.com", "443") := by decide
  have hport : qtoInt "443" = 443 := by decide
  simp [run, step, downStreamReadyRead, initSession, hm, hmatch, hport,
    lookupHandler, connectedLambda]

theorem c3_connect_reply_witness :
    supportedMethod "CONNECT" = true ∧
    (run (initSession 1)
        [Event.downData "request bytes"
           (ParseResult.Completed ⟨"CONNECT", "example.com:443", 1, 1⟩),
         Event.lookupResult ⟨"CONNECT", "example.com:443", 1, 1⟩ 443 ["93.184.216.34"],
         Event.upConnected]).2 =
      [Action.lookupHost "example.com" 443 ⟨"CONNECT", "example.com:443", 1, 1⟩,
       Action.connectAttempt "93.184.216.34" 443] ++
        (if "CONNECT" = "CONNECT"
         then [Action.writeDown (connectedResponse 1 1), Action.flushDown]
         else []) :=
  ⟨by decide, c3_connect_reply 1 1 "CONNECT" (by decide)⟩

/-- C4 counterexample: the claim says any target containing a scheme, path or
query fails the `^(.*):(\d+)$` match and the session terminates without a
resolution attempt.  The greedy `(.*)` accepts anything before the last
colon, so the scheme-carrying target `http://example.com:8080` matches
(captures `http://example.com` and `8080`) and the session proceeds to issue
a host lookup instead of terminating. -/
theorem c4_scheme_target_matches :
    matchHostPort "http://example.com:8080" = some ("http://example.com", "8080") ∧
    step (initSession 3)
        (Event.downData "GET http://example.com:8080 HTTP/1.1\r\n\r\n"
          (ParseResult.Completed ⟨"GET", "http://example.com:8080", 1, 1⟩)) =
      (initSession 3,
       [Action.lookupHost "http://example.com" 8080
          ⟨"GET", "http://example.com:8080", 1, 1⟩]) ∧
    isTerminated (initSession 3) = false := by
  decide

/-- C4 amended: a supported-method target is accepted exactly when it matches
`^(.*):(\d+)$`, i.e. exactly when it ends in a colon followed by at least one
ASCII digit; the host capture is arbitrary and may contain a scheme or path.
When the match fails (e.g. target `/path`) the session terminates with no
resolution and no upstream connect attempt; when it matches, the session
issues exactly one host lookup for the first capture. -/
theorem c4_target_regex (s : Session) (req : Request) (d h p : String)
    (hb : s.downBlocked = false) (hc : s.upState ≠ SockState.Connected)
    (hm : supportedMethod req.method = true) :
    ((∃ hp, matchHostPort req.uri = some hp) ↔ HasHostPortForm req.uri) ∧
    (matchHostPort req.uri = none →
      (step s (Event.downData d (ParseResult.Completed req))).2 =
          Action.warn "Invaid URI found!" :: (terminate s).2 ∧
        isTerminated (step s (Event.downData d (ParseResult.Completed req))).1 = true ∧
        lookups (step s (Event.downData d (ParseResult.Completed req))).2 = [] ∧
        connectCalls (step s (Event.downData d (ParseResult.Completed req))).2 = []) ∧
    (matchHostPort req.uri = some (h, p) →
      (step s (Event.downData d (ParseResult.Completed req))).2 =
        [Action.lookupHost h (qtoInt p) req]) := by
  refine ⟨matchHostPort_some_iff req.uri, ?_, ?_⟩
  · intro hnone
    refine ⟨?_, ?_, ?_, ?_⟩ <;>
      simp [step, hb, downStreamReadyRead, hc, hm, hnone, terminate, isTerminated] <;>
      (try (split <;> simp))
  · intro hsome
    simp [step, hb, downStreamReadyRead, hc, hm, hsome]

theorem c4_target_regex_witness :
    (initSession 0).downBlocked = false ∧
    (initSession 0).upState ≠ SockState.Connected ∧
    supportedMethod "GET" = true ∧
    (((∃ hp, matchHostPort "/path" = some hp) ↔ HasHostPortForm "/path") ∧
      (matchHostPort "/path" = none →
        (step (initSession 0)
            (Event.downData "GET /path HTTP/1.1\r\n\r\n"
              (ParseResult.Completed ⟨"GET", "/path", 1, 1⟩))).2 =
            Action.warn "Invaid URI found!" :: (terminate (initSession 0)).2 ∧
          isTerminated
            (step (initSession 0)
              (Event.downData "GET /path HTTP/1.1\r\n\r\n"
                (ParseResult.Completed ⟨"GET", "/path", 1, 1⟩))).1 = true ∧
          lookups
            (step (initSession 0)
              (Event.downData "GET /path HTTP/1.1\r\n\r\n"
                (ParseResult.Completed ⟨"GET", "/path", 1, 1⟩))).2 = [] ∧
          connectCalls
            (step (initSession 0)
              (Event.downData "GET /path HTTP/1.1\r\n\r\n"
                (ParseResult.Completed ⟨"GET", "/path", 1, 1⟩))).2 = []) ∧
      (matchHostPort "/path" = some ("", "") →
        (step (initSession 0)
            (Event.downData "GET /path HTTP/1.1\r\n\r\n"
              (ParseResult.Completed ⟨"GET", "/path", 1, 1⟩))).2 =
          [Action.lookupHost "" (qtoInt "") ⟨"GET", "/path", 1, 1⟩])) :=
  ⟨by decide, by decide, by decide,
    c4_target_regex (initSession 0) ⟨"GET", "/path", 1, 1⟩
      "GET /path HTTP/1.1\r\n\r\n" "" "" (by decide) (by decide) (by decide)⟩

/-- C5: a host-resolution completion with zero addresses terminates the
Session (warning, both sockets closed, exactly one termination notification)
and no bytes are ever written downstream afterwards, so no success reply is
ever sent; a completion with one or more addresses issues exactly one
`connectToHost` call, to the first returned address only. -/
theorem c5_resolution (s : Session) (req : Request) (port : Int) (a : String)
    (rest : List String) (es : List Event) (hs : s.selfBlocked = false) :
    step s (Event.lookupResult req port []) =
        ({ s with downBlocked := true, upBlocked := true, downOpen := false,
                  upOpen := false, upState := SockState.Unconnected },
         [Action.warn "HostLookup failed!", Action.closeDown, Action.closeUp,
          Action.emitTerminated s.id]) ∧
      isTerminated (step s (Event.lookupResult req port [])).1 = true ∧
      downWrites (run (step s (Event.lookupResult req port [])).1 es).2 = [] ∧
      connectCalls (step s (Event.lookupResult req port (a :: rest))).2 = [(a, port)] := by
  have hstep : step s (Event.lookupResult req port []) =
      ({ s with downBlocked := true, upBlocked := true, downOpen := false,
                upOpen := false, upState := SockState.Unconnected },
       [Action.warn "HostLookup failed!", Action.closeDown, Action.closeUp,
        Action.emitTerminated s.id]) := by
    simp [step, lookupHandler, terminate, hs]
  refine ⟨hstep, ?_, ?_, ?_⟩
  · rw [hstep]; rfl
  · rw [hstep]
    exact downWrites_run_blocked _ es rfl rfl
  · simp [step, lookupHandler]

theorem c5_resolution_witness :
    (initSession 5).selfBlocked = false ∧
    (step (initSession 5) (Event.lookupResult ⟨"CONNECT", "bad.invalid:443", 1, 1⟩ 443 []) =
        ({ initSession 5 with downBlocked := true, upBlocked := true, downOpen := false,
                              upOpen := false, upState := SockState.Unconnected },
         [Action.warn "HostLookup failed!", Action.closeDown, Action.closeUp,
          Action.emitTerminated (initSession 5).id]) ∧
      isTerminated
        (step (initSession 5)
          (Event.lookupResult ⟨"CONNECT", "bad.invalid:443", 1, 1⟩ 443 [])).1 = true ∧
      downWrites
        (run (step (initSession 5)
            (Event.lookupResult ⟨"CONNECT", "bad.invalid:443", 1, 1⟩ 443 [])).1
          [Event.upData "late bytes", Event.downData "more" ParseResult.Error]).2 = [] ∧
      connectCalls
        (step (initSession 5)
          (Event.lookupResult ⟨"CONNECT", "bad.invalid:443", 1, 1⟩ 443
            ["10.1.1.1", "10.2.2.2"])).2 = [("10.1.1.1", 443)]) :=
  ⟨by decide,
    c5_resolution (initSession 5) ⟨"CONNECT", "bad.invalid:443", 1, 1⟩ 443
      "10.1.1.1" ["10.2.2.2"]
      [Event.upData "late bytes", Event.downData "more" ParseResult.Error] (by decide)⟩

/-- C6: handling the termination signal is idempotent on the Registry.
Firing a Session's terminate twice yields exactly one registry removal and
exactly one delivered termination notification (the handler blocks the
connection's signals before removing it); delivering the `terminated(id)`
signal twice likewise removes exactly once; and delivering it with an id not
present in the registry is a no-op. -/
theorem c6_registry_idempotent (st st2 : SystemState) (i j : Int)
    (h1 : st.conn.id = i) (h2 : st.conn.selfBlocked = false)
    (h3 : st.registry = [i]) (h4 : st2.registry.contains j = false) :
    ((fireTerminate st).2.1 + (fireTerminate (fireTerminate st).1).2.1 = 1 ∧
      (fireTerminate st).2.2 + (fireTerminate (fireTerminate st).1).2.2 = 1 ∧
      (fireTerminate (fireTerminate st).1).1.registry = []) ∧
    ((onConnectionTerminate st i).2 = 1 ∧
      (onConnectionTerminate (onConnectionTerminate st i).1 i).2 = 0 ∧
      (onConnectionTerminate (onConnectionTerminate st i).1 i).1 =
        (onConnectionTerminate st i).1) ∧
    onConnectionTerminate st2 j = (st2, 0) := by
  refine ⟨?_, ?_, ?_⟩
  · simp [fireTerminate, onConnectionTerminate, terminate, h1, h2, h3]
  · simp [onConnectionTerminate, h1, h3]
  · have h5 : j ∉ st2.registry := by simpa using h4
    simp [onConnectionTerminate, h5]

theorem c6_registry_idempotent_witness :
    (SystemState.mk (initSession 11) [11]).conn.id = 11 ∧
    (SystemState.mk (initSession 11) [11]).conn.selfBlocked = false ∧
    (SystemState.mk (initSession 11) [11]).registry = [11] ∧
    (SystemState.mk (initSession 11) []).registry.contains 5 = false ∧
    (((fireTerminate (SystemState.mk (initSession 11) [11])).2.1 +
        (fireTerminate (fireTerminate (SystemState.mk (initSession 11) [11])).1).2.1 = 1 ∧
      (fireTerminate (SystemState.mk (initSession 11) [11])).2.2 +
        (fireTerminate (fireTerminate (SystemState.mk (initSession 11) [11])).1).2.2 = 1 ∧
      (fireTerminate (fireTerminate (SystemState.mk (initSession 11) [11])).1).1.registry = []) ∧
    ((onConnectionTerminate (SystemState.mk (initSession 11) [11]) 11).2 = 1 ∧
      (onConnectionTerminate
        (onConnectionTerminate (SystemState.mk (initSession 11) [11]) 11).1 11).2 = 0 ∧
      (onConnectionTerminate
        (onConnectionTerminate (SystemState.mk (initSession 11) [11]) 11).1 11).1 =
        (onConnectionTerminate (SystemState.mk (initSession 11) [11]) 11).1) ∧
    onConnectionTerminate (SystemState.mk (initSession 11) []) 5 =
      (SystemState.mk (initSession 11) [], 0)) :=
  ⟨by decide, by decide, by decide, by decide,
    c6_registry_idempotent (SystemState.mk (initSession 11) [11])
      (SystemState.mk (initSession 11) []) 11 5 (by decide) (by decide) (by decide)
      (by decide)⟩

/-- C7 counterexample: the claim says additional downstream data arriving
before the upstream connection is established can never trigger a second
classification or a second resolution.  The code guards classification by
upstream connectedness, not by first-read, so a second chunk arriving while
resolution of the first is still pending is classified again and issues a
second host lookup. -/
theorem c7_reclassified_before_connect :
    (run (initSession 2)
        [Event.downData "CONNECT a:1 HTTP/1.1\r\n\r\n"
           (ParseResult.Completed ⟨"CONNECT", "a:1", 1, 1⟩),
         Event.downData "CONNECT b:2 HTTP/1.1\r\n\r\n"
           (ParseResult.Completed ⟨"CONNECT", "b:2", 1, 1⟩)]).2 =
      [Action.lookupHost "a" 1 ⟨"CONNECT", "a:1", 1, 1⟩,
       Action.lookupHost "b" 2 ⟨"CONNECT", "b:2", 1, 1⟩] := by
  decide

/-- C7 amended: the Classifier runs on every downstream `readyRead` delivered
while the upstream socket is not in `ConnectedState` — regardless of how many
classifications already happened — and downstream data is relayed upstream
instead of classified exactly when the upstream socket is connected.  So
additional data before establishment can trigger further classifications and
resolutions, and relay begins only once connected. -/
theorem c7_classify_guard (s : Session) (d : String) (pr : ParseResult)
    (req : Request) (h p : String) (hb : s.downBlocked = false) :
    (s.upState ≠ SockState.Connected → supportedMethod req.method = true →
      matchHostPort req.uri = some (h, p) →
      (step s (Event.downData d (ParseResult.Completed req))).2 =
        [Action.lookupHost h (qtoInt p) req]) ∧
    (s.upState = SockState.Connected →
      (step s (Event.downData d pr)).2 = [Action.writeUp d, Action.flushUp]) := by
  constructor
  · intro hc hm hmatch
    simp [step, hb, downStreamReadyRead, hc, hm, hmatch]
  · intro hc
    simp [step, hb, downStreamReadyRead, hc]

theorem c7_classify_guard_witness :
    (initSession 2).downBlocked = false ∧
    (((initSession 2).upState ≠ SockState.Connected →
        supportedMethod "CONNECT" = true →
        matchHostPort "b:2" = some ("b", "2") →
        (step (initSession 2)
            (Event.downData "CONNECT b:2 HTTP/1.1\r\n\r\n"
              (ParseResult.Completed ⟨"CONNECT", "b:2", 1, 1⟩))).2 =
          [Action.lookupHost "b" (qtoInt "2") ⟨"CONNECT", "b:2", 1, 1⟩]) ∧
      ((initSession 2).upState = SockState.Connected →
        (step (initSession 2)
            (Event.downData "CONNECT b:2 HTTP/1.1\r\n\r\n"
              (ParseResult.Completed ⟨"CONNECT", "b:2", 1, 1⟩))).2 =
          [Action.writeUp "CONNECT b:2 HTTP/1.1\r\n\r\n", Action.flushUp])) :=
  ⟨by decide,
    c7_classify_guard (initSession 2) "CONNECT b:2 HTTP/1.1\r\n\r\n"
      (ParseResult.Completed ⟨"CONNECT", "b:2", 1, 1⟩) ⟨"CONNECT", "b:2", 1, 1⟩
      "b" "2" (by decide)⟩

/-- C8: claims a host-resolution completion landing after termination is
detected and discarded.  The lookup lambda has no liveness check: it runs as
long as the connection object exists (its deferred deletion only runs after
the queue drains), so after the session terminated — both sockets closed and
blocked, notification already delivered — a completing lookup still calls
`connectToHost` on the closed upstream socket, which starts connecting.
This theorem evaluates that failing trace. -/
theorem c8_lookup_after_termination :
    isTerminated
        (run (initSession 7)
          [Event.downData "CONNECT example.com:443 HTTP/1.1\r\n\r\n"
             (ParseResult.Completed ⟨"CONNECT", "example.com:443", 1, 1⟩),
           Event.downDisconnected]).1 = true ∧
    notifications
        (run (initSession 7)
          [Event.downData "CONNECT example.com:443 HTTP/1.1\r\n\r\n"
             (ParseResult.Completed ⟨"CONNECT", "example.com:443", 1, 1⟩),
           Event.downDisconnected]).2 = [7] ∧
    step
        (run (initSession 7)
          [Event.downData "CONNECT example.com:443 HTTP/1.1\r\n\r\n"
             (ParseResult.Completed ⟨"CONNECT", "example.com:443", 1, 1⟩),
           Event.downDisconnected]).1
        (Event.lookupResult ⟨"CONNECT", "example.com:443", 1, 1⟩ 443 ["93.184.216.34"]) =
      (⟨7, true, true, false, false, SockState.Connecting,
          [⟨"CONNECT", "example.com:443", 1, 1⟩], false⟩,
       [Action.connectAttempt "93.184.216.34" 443]) := by
  decide

/-- C9: for passthrough methods the request bytes consumed during
classification are never written to the upstream socket: over every event
trace, the payloads written upstream are exactly the payloads of the
downstream `readyRead` events delivered while the upstream socket was in
`ConnectedState`, in order. -/
theorem c9_upstream_writes_only_when_connected (s : Session) (es : List Event) :
    upWrites (run s es).2 = connectedDownData s es := by
  induction es generalizing s with
  | nil => rfl
  | cons e es ih =>
      rw [run_cons]
      show upWrites ((step s e).2 ++ (run (step s e).1 es).2) = _
      rw [upWrites_append, upWrites_step, ih]
      rfl

/-- C10: every upstream `readyRead` unconditionally copies the available
upstream bytes to the downstream socket and flushes, in every Session state:
the handler neither inspects nor changes any state, so upstream bytes
arriving right after connection establishment are forwarded downstream even
before (or without) the CONNECT 200 reply being written. -/
theorem c10_upstream_relay_unconditional (s : Session) (d : String)
    (hb : s.upBlocked = false) :
    upStreamReadyRead s d = (s, [Action.writeDown d, Action.flushDown]) ∧
    (step s (Event.upData d)).2 = [Action.writeDown d, Action.flushDown] ∧
    (step s (Event.upData d)).1 = s := by
  refine ⟨rfl, ?_, ?_⟩ <;> simp [step, hb, upStreamReadyRead]

theorem c10_upstream_relay_unconditional_witness :
    (Session.mk 6 false false true true SockState.Connected
        [⟨"CONNECT", "example.com:443", 1, 1⟩] false).upBlocked = false ∧
    (upStreamReadyRead
        (Session.mk 6 false false true true SockState.Connected
          [⟨"CONNECT", "example.com:443", 1, 1⟩] false) "early upstream bytes" =
      (Session.mk 6 false false true true SockState.Connected
        [⟨"CONNECT", "example.com:443", 1, 1⟩] false,
       [Action.writeDown "early upstream bytes", Action.flushDown]) ∧
    (step (Session.mk 6 false false true true SockState.Connected
        [⟨"CONNECT", "example.com:443", 1, 1⟩] false) (Event.upData "early upstream bytes")).2 =
      [Action.writeDown "early upstream bytes", Action.flushDown] ∧
    (step (Session.mk 6 false false true true SockState.Connected
        [⟨"CONNECT", "example.com:443", 1, 1⟩] false) (Event.upData "early upstream bytes")).1 =
      Session.mk 6 false false true true SockState.Connected
        [⟨"CONNECT", "example.com:443", 1, 1⟩] false) :=
  ⟨by decide,
    c10_upstream_relay_unconditional
      (Session.mk 6 false false true true SockState.Connected
        [⟨"CONNECT", "example.com:443", 1, 1⟩] false) "early upstream bytes" (by decide)⟩

end DllProxy
